import Mathlib

/-!
Shallow embedding of the Room 616 game core (a turn-based interactive
fiction bot): the bounded player-resource model and turn engine
(`src/game/state.ts`), the scoring engine (`src/game/scoring.ts`), the
session registry and round manager (`src/game/session.ts`), and the
interaction-correlation layer of the bot handlers (`src/index.ts`).
JavaScript numbers applied to the integer meters are modelled as `Int`;
JavaScript `Map`s and `Set`s are modelled as insertion-ordered
association lists; `Date`-valued fields, which no verified property
mentions, are omitted.
-/

namespace Room616

/-- PlayerState from `src/game/types.ts`: six bounded integer meters plus a
turn counter. -/
structure PlayerState where
  time_remaining : Int
  trust : Int
  sanity : Int
  insight : Int
  system_access : Int
  morality : Int
  turn : Int
deriving DecidableEq

/-- StateDelta models the `Partial<PlayerState>` argument of
`applyStateChanges`: each meter is optionally present. -/
structure StateDelta where
  time_remaining : Option Int
  trust : Option Int
  sanity : Option Int
  insight : Option Int
  system_access : Option Int
  morality : Option Int
  turn : Option Int
deriving DecidableEq

/-- Delta with every field absent. -/
def emptyDelta : StateDelta :=
  ⟨none, none, none, none, none, none, none⟩

/-- createInitialState from `src/game/state.ts`. -/
def createInitialState : PlayerState :=
  { time_remaining := 12
    trust := 0
    sanity := 100
    insight := 0
    system_access := 0
    morality := 0
    turn := 1 }

/-- applyStateChanges from `src/game/state.ts`, translated statement by
statement: each meter present in the delta is clamped into its range
(`Math.max(lo, Math.min(hi, v))`), `turn` is taken from the delta or
incremented, and finally `time_remaining` is decremented (floored at 0)
when the delta did not set it. -/
def applyStateChanges (currentState : PlayerState) (changes : StateDelta) :
    PlayerState :=
  let s1 := match changes.time_remaining with
    | some v => { currentState with time_remaining := max 0 (min 12 v) }
    | none => currentState
  let s2 := match changes.trust with
    | some v => { s1 with trust := max (-3) (min 3 v) }
    | none => s1
  let s3 := match changes.sanity with
    | some v => { s2 with sanity := max 0 (min 100 v) }
    | none => s2
  let s4 := match changes.insight with
    | some v => { s3 with insight := max 0 (min 100 v) }
    | none => s3
  let s5 := match changes.system_access with
    | some v => { s4 with system_access := max 0 (min 3 v) }
    | none => s4
  let s6 := match changes.morality with
    | some v => { s5 with morality := max (-100) (min 100 v) }
    | none => s5
  let s7 := match changes.turn with
    | some t => { s6 with turn := t }
    | none => { s6 with turn := s6.turn + 1 }
  match changes.time_remaining with
  | some _ => s7
  | none => { s7 with time_remaining := max 0 (s7.time_remaining - 1) }

/-- shouldEndGame from `src/game/state.ts`:
`turn >= 20 || time_remaining <= 0 || system_access >= 3`. -/
def shouldEndGame (state : PlayerState) : Bool :=
  decide (20 ≤ state.turn) || decide (state.time_remaining ≤ 0) ||
    decide (3 ≤ state.system_access)

/-- jsRound models JavaScript `Math.round` on the exact rational value
of its argument: round half toward positive infinity. -/
def jsRound (x : ℚ) : ℤ :=
  Int.floor (x + 1 / 2)

/-- scoreRaw is the raw score expression of `computeScore` in
`src/game/scoring.ts`, read as exact rational arithmetic:
`100 + insight/2 + system_access*50 + trust*20 - (100 - sanity)/2
+ morality/5`. -/
def scoreRaw (state : PlayerState) : ℚ :=
  (100 : ℚ) + (state.insight : ℚ) / 2 + (state.system_access : ℚ) * 50 +
    (state.trust : ℚ) * 20 - ((100 : ℚ) - (state.sanity : ℚ)) / 2 +
    (state.morality : ℚ) / 5

/-- computeScore from `src/game/scoring.ts`:
`Math.max(0, Math.round(raw))` with `raw = scoreRaw`. Since every term
of the raw expression is an integer number of tenths, rounding half up
is floor division of `10*raw + 5` by ten; the definition uses that
integer form so that it evaluates inside the kernel, and
`computeScore_eq_round` below proves it equal to `max 0 (jsRound
(scoreRaw state))`, the literal reading of the source. -/
def computeScore (state : PlayerState) : ℤ :=
  max 0 ((1000 + 5 * state.insight + 500 * state.system_access +
    200 * state.trust - 5 * (100 - state.sanity) + 2 * state.morality +
    5) / 10)

/-- Tier labels returned by `getTier`. -/
inductive Tier where
  | S
  | A
  | B
  | C
  | D
deriving DecidableEq

/-- getTier from `src/game/scoring.ts`: S ≥ 450, A ≥ 350, B ≥ 250,
C ≥ 150, else D. -/
def getTier (score : ℤ) : Tier :=
  if 450 ≤ score then Tier.S
  else if 350 ≤ score then Tier.A
  else if 250 ≤ score then Tier.B
  else if 150 ≤ score then Tier.C
  else Tier.D

/-- EndingResult from `src/game/types.ts`. -/
structure EndingResult where
  ending_id : String
  ending_title : String
  ending_text : String
  final_score : Int
  tier : Tier
deriving DecidableEq

/-- GPTEndingResponse from `src/game/types.ts`: the narrative fields and
advisory score returned by the ending generator. -/
structure GPTEndingResponse where
  ending_id : String
  ending_title : String
  ending_text : String
  proposed_score : Int
deriving DecidableEq

/-- GPTSceneResponse from `src/game/types.ts` (the optional hint and
image url fields are not consulted by any verified property and are
omitted). -/
structure GPTSceneResponse where
  scene_text : String
  state_changes : StateDelta
  choices : List String
deriving DecidableEq

/-- createEndingResult from `src/game/scoring.ts`: the generator's
narrative fields composed with the backend-computed score and tier. -/
def createEndingResult (ending : GPTEndingResponse)
    (finalState : PlayerState) : EndingResult :=
  { ending_id := ending.ending_id
    ending_title := ending.ending_title
    ending_text := ending.ending_text
    final_score := computeScore finalState
    tier := getTier (computeScore finalState) }

/-- LeaderboardEntry from `src/game/types.ts` (timestamp omitted). -/
structure LeaderboardEntry where
  season_id : String
  session_id : String
  wallet : String
  score : Int
  ending_id : String
  tier : Tier
deriving DecidableEq

/-- RoundState from `src/game/types.ts`: the JavaScript `Set` of active
players and `Map` of completed players are modelled as insertion-ordered
lists (`startedAt` omitted). -/
structure RoundState where
  roundId : String
  seasonId : String
  prizePool : Int
  activePlayers : List String
  completedPlayers : List (String × EndingResult)
  isActive : Bool
deriving DecidableEq

/-- GameSession from `src/game/types.ts` (`startedAt` and `displayName`
omitted). -/
structure GameSession where
  sessionId : String
  userId : String
  smartAccountAddress : String
  channelId : String
  state : PlayerState
  tipAmount : Int
  actionHistory : List String
  isActive : Bool
  endingId : Option String
  finalScore : Option Int
deriving DecidableEq

/-- mapGet models `Map.prototype.get` on an insertion-ordered
association list. -/
def mapGet {α : Type} (m : List (String × α)) (k : String) : Option α :=
  (m.find? (fun kv => kv.1 = k)).map (fun kv => kv.2)

/-- mapSet models `Map.prototype.set`: an existing key is updated in
place, a new key is appended, preserving insertion order. -/
def mapSet {α : Type} (m : List (String × α)) (k : String) (v : α) :
    List (String × α) :=
  if m.any (fun kv => kv.1 = k) then
    m.map (fun kv => if kv.1 = k then (k, v) else kv)
  else m ++ [(k, v)]

/-- mapDelete models `Map.prototype.delete`. -/
def mapDelete {α : Type} (m : List (String × α)) (k : String) :
    List (String × α) :=
  m.filter (fun kv => kv.1 ≠ k)

/-- setAdd models `Set.prototype.add` on an insertion-ordered list. -/
def setAdd (s : List String) (x : String) : List String :=
  if s.contains x then s else s ++ [x]

/-- setDelete models `Set.prototype.delete`. -/
def setDelete (s : List String) (x : String) : List String :=
  s.filter (fun y => y ≠ x)

/-- SessionStore bundles the module-level mutable registries of
`src/game/session.ts`: `activeSessions`, `rounds`, `leaderboard`,
`currentRoundId` and `currentSeasonId`. -/
structure SessionStore where
  activeSessions : List (String × GameSession)
  rounds : List (String × RoundState)
  leaderboard : List LeaderboardEntry
  currentRoundId : Option String
  currentSeasonId : String
deriving DecidableEq

/-- freshRound is the round literal minted inside `getCurrentRound`:
zero prize pool, empty player sets, active. -/
def freshRound (roundId seasonId : String) : RoundState :=
  { roundId := roundId
    seasonId := seasonId
    prizePool := 0
    activePlayers := []
    completedPlayers := []
    isActive := true }

/-- mintRound is the tail of `getCurrentRound`'s outer branch: assign a
new current round id, register the fresh round, return it. -/
def mintRound (store : SessionStore) (freshId : String) :
    RoundState × SessionStore :=
  let newRound := freshRound freshId store.currentSeasonId
  (newRound, { store with
    currentRoundId := some freshId
    rounds := mapSet store.rounds freshId newRound })

/-- getCurrentRound from `src/game/session.ts`. The identifier a newly
minted round would receive (`round-Date.now()` in the source) is passed
in as `freshId`. The staleness check on `lastRound` is translated
verbatim from the source, including the fact that it sits inside the
branch taken only when the current round id is unset or unbound — where
`lastRound` is necessarily absent. -/
def getCurrentRound (store : SessionStore) (freshId : String) :
    RoundState × SessionStore :=
  let missing : Bool := match store.currentRoundId with
    | none => true
    | some rid => (mapGet store.rounds rid).isNone
  if missing then
    let lastRound : Option RoundState := match store.currentRoundId with
      | none => none
      | some rid => mapGet store.rounds rid
    match lastRound with
    | some lr =>
      if lr.isActive && lr.completedPlayers.isEmpty then (lr, store)
      else mintRound store freshId
    | none => mintRound store freshId
  else
    match store.currentRoundId.bind (fun rid => mapGet store.rounds rid) with
    | some r => (r, store)
    | none => mintRound store freshId

/-- lowerString models JavaScript `String.prototype.toLowerCase`
character by character. -/
def lowerString (s : String) : String :=
  ⟨s.data.map Char.toLower⟩

/-- getSession from `src/game/session.ts`: lookup by the raw identifier,
then by its lower-cased form. -/
def getSession (store : SessionStore) (identifier : String) :
    Option GameSession :=
  match mapGet store.activeSessions identifier with
  | some s => some s
  | none => mapGet store.activeSessions (lowerString identifier)

/-- storeSession writes a session object under both of its identifier
keys, mirroring the fact that in the source both map slots hold the same
mutable object, so an update through one key is visible through the
other. -/
def storeSession (sessions : List (String × GameSession))
    (session : GameSession) : List (String × GameSession) :=
  mapSet (mapSet sessions session.userId session)
    (lowerString session.smartAccountAddress) session

/-- endSession from `src/game/session.ts`. The identifier a freshly
minted round would receive inside the `getCurrentRound()` call is passed
in as `freshRoundId`. When no session is registered under `userId` the
whole call is a no-op, as in the source. -/
def endSession (store : SessionStore) (userId : String)
    (ending : GPTEndingResponse) (finalScore : Int) (tier : Tier)
    (freshRoundId : String) : SessionStore :=
  match mapGet store.activeSessions userId with
  | none => store
  | some session =>
    let session' := { session with
      isActive := false
      endingId := some ending.ending_id
      finalScore := some finalScore }
    let (round, store1) := getCurrentRound store freshRoundId
    let round' := { round with
      activePlayers := setDelete round.activePlayers userId
      completedPlayers := mapSet round.completedPlayers userId
        { ending_id := ending.ending_id
          ending_title := ending.ending_title
          ending_text := ending.ending_text
          final_score := finalScore
          tier := tier } }
    let entry : LeaderboardEntry :=
      { season_id := round.seasonId
        session_id := session.sessionId
        wallet := userId
        score := finalScore
        ending_id := ending.ending_id
        tier := tier }
    let round'' := if 1 ≤ round'.completedPlayers.length then
        { round' with isActive := false }
      else round'
    { store1 with
      activeSessions := storeSession store1.activeSessions session'
      rounds := mapSet store1.rounds round.roundId round''
      leaderboard := store1.leaderboard ++ [entry] }

/-- pickWinner is the for-loop of `getRoundWinner`: a linear scan
carrying the best entry seen so far and its score (initially `-1`),
updated on strict improvement only. -/
def pickWinner (acc : Option (String × EndingResult)) (highestScore : Int) :
    List (String × EndingResult) → Option (String × EndingResult)
  | [] => acc
  | e :: es =>
    if highestScore < e.2.final_score then
      pickWinner (some e) e.2.final_score es
    else
      pickWinner acc highestScore es

/-- getRoundWinner from `src/game/session.ts`. -/
def getRoundWinner (store : SessionStore) (roundId : String) :
    Option (String × EndingResult) :=
  match mapGet store.rounds roundId with
  | none => none
  | some round =>
    if round.completedPlayers.isEmpty then none
    else pickWinner none (-1) round.completedPlayers

/-- InteractionData is the record stored in `interactionRequestMap` in
`src/index.ts`: the prompted player and the ordered choice list. -/
structure InteractionData where
  userId : String
  choices : List String
deriving DecidableEq

/-- FormComponent models one component of an interaction-form response:
its declared id and whether it is a button. -/
structure FormComponent where
  id : String
  isButton : Bool
deriving DecidableEq

/-- InteractionEvent models the slice of a button-click event that
`onInteractionResponse` in `src/index.ts` consults: the responding
player, the echoed request id, whether the payload is a form, and the
response components. -/
structure InteractionEvent where
  userId : String
  requestId : String
  isForm : Bool
  components : List FormComponent
deriving DecidableEq

/-- HandlerResult enumerates the outcomes of `onInteractionResponse`,
one per early return of the source handler plus the successful
resolution carrying the selected choice string. -/
inductive HandlerResult where
  | notForm
  | correlationMiss
  | wrongUser
  | noActiveSession
  | invalidSelection
  | resolved (choice : String)
deriving DecidableEq

/-- storeInteraction models the tail of `sendSceneWithButtons` in
`src/index.ts` (lines 100-106): the same record is stored under both the
form id and the transport event id. -/
def storeInteraction (imap : List (String × InteractionData))
    (formId eventId userId : String) (choices : List String) :
    List (String × InteractionData) :=
  mapSet (mapSet imap formId ⟨userId, choices⟩) eventId ⟨userId, choices⟩

/-- includesJS models JavaScript `a.includes(b)`: `b` occurs as a
contiguous substring of `a`. -/
def includesJS (a b : String) : Bool :=
  decide (b.data <:+: a.data)

/-- lookupInteraction models the record lookup of
`onInteractionResponse`: an exact `Map.get` on the echoed request id,
and on a miss a first-match scan (in insertion order) for any stored key
in substring relation with the request id, in either direction. -/
def lookupInteraction (imap : List (String × InteractionData))
    (requestId : String) : Option InteractionData :=
  match mapGet imap requestId with
  | some d => some d
  | none =>
    (imap.find? (fun kv =>
      includesJS kv.1 requestId || includesJS requestId kv.1)).map
      (fun kv => kv.2)

/-- replaceOnce models JavaScript `String.prototype.replace` with a
string pattern: only the first occurrence is removed (the source always
replaces with the empty string). -/
def replaceOnce (pat : List Char) : List Char → List Char
  | [] => []
  | c :: cs =>
    if pat.isPrefixOf (c :: cs) then (c :: cs).drop pat.length
    else c :: replaceOnce pat cs

/-- parseDigits reads a leading run of decimal digits, failing when
there is none, and ignoring anything after the run, as `parseInt` does. -/
def parseDigits (s : List Char) : Option Nat :=
  let ds := s.takeWhile Char.isDigit
  if ds.isEmpty then none
  else some (ds.foldl (fun acc c => acc * 10 + (c.toNat - '0'.toNat)) 0)

/-- parseIntJS models JavaScript `parseInt` in base 10: optional
leading spaces and sign, then a digit run; `NaN` becomes `none`. -/
def parseIntJS (s : List Char) : Option Int :=
  let s1 := s.dropWhile (fun c => c = ' ')
  match s1 with
  | '-' :: rest => (parseDigits rest).map (fun n => -(n : Int))
  | '+' :: rest => (parseDigits rest).map (fun n => (n : Int))
  | _ => (parseDigits s1).map (fun n => (n : Int))

/-- parseChoiceIndex models
`parseInt(componentId.replace('choice-', ''))` from the response
handler. -/
def parseChoiceIndex (id : String) : Option Int :=
  parseIntJS (replaceOnce "choice-".data id.data)

/-- findSelectedChoice models the component loop of
`onInteractionResponse`: scan the response components in order, and for
each button parse its declared index; the first index that is a number
and within the stored choice-list bounds selects that choice, every
other component is skipped. -/
def findSelectedChoice (choices : List String) :
    List FormComponent → Option String
  | [] => none
  | comp :: rest =>
    if comp.isButton then
      match parseChoiceIndex comp.id with
      | some i =>
        if decide (0 ≤ i) && decide (i < (choices.length : Int)) then
          choices[i.toNat]?
        else findSelectedChoice choices rest
      | none => findSelectedChoice choices rest
    else findSelectedChoice choices rest

/-- handleInteractionResponse models `onInteractionResponse` from
`src/index.ts` up to the hand-off to `processTurn`: form check, record
lookup (exact then substring fallback), identity validation, session
check, component scan, and — only on success — deletion of the echoed
request id from the map. It returns the outcome and the updated
interaction map; the session store is read, never written, so any
non-`resolved` outcome leaves all session state untouched. -/
def handleInteractionResponse (imap : List (String × InteractionData))
    (store : SessionStore) (ev : InteractionEvent) :
    HandlerResult × List (String × InteractionData) :=
  if ev.isForm = false then (HandlerResult.notForm, imap)
  else match lookupInteraction imap ev.requestId with
  | none => (HandlerResult.correlationMiss, imap)
  | some interactionData =>
    if interactionData.userId ≠ ev.userId then
      (HandlerResult.wrongUser, imap)
    else match getSession store ev.userId with
    | none => (HandlerResult.noActiveSession, imap)
    | some session =>
      if session.isActive = false then (HandlerResult.noActiveSession, imap)
      else match findSelectedChoice interactionData.choices ev.components with
      | none => (HandlerResult.invalidSelection, imap)
      | some choice =>
        (HandlerResult.resolved choice, mapDelete imap ev.requestId)

/-- TurnOutcome enumerates what `processTurn` reports back to the
player: the catch-all turn-processing error message, a generated ending,
or the next scene's choices. -/
inductive TurnOutcome where
  | turnError
  | ended (result : EndingResult)
  | continued (choices : List String)
deriving DecidableEq

/-- processTurn models `processTurn` from `src/index.ts` at the level of
the player's session object, with the two narrative-generator calls
passed in as possibly-failed results (`none` models a thrown
network/parse error). The session is mutated in place in the source, so
the returned session is whatever the shared object holds when the
handler finishes — including the catch branch, which sends the error
message but rolls nothing back. Round bookkeeping on an ending is
`endSession`, modelled separately on the store. -/
def processTurn (session : GameSession) (action : String)
    (sceneResult : Option GPTSceneResponse)
    (endingResult : Option GPTEndingResponse) : GameSession × TurnOutcome :=
  match sceneResult with
  | none => (session, TurnOutcome.turnError)
  | some scene =>
    let newState := applyStateChanges session.state scene.state_changes
    let hist0 := session.actionHistory ++ [action]
    let hist := if 20 < hist0.length then hist0.drop 1 else hist0
    let session1 := { session with state := newState, actionHistory := hist }
    if shouldEndGame newState then
      match endingResult with
      | none => (session1, TurnOutcome.turnError)
      | some ending =>
        let result := createEndingResult ending newState
        let session2 := { session1 with
          isActive := false
          endingId := some ending.ending_id
          finalScore := some result.final_score }
        (session2, TurnOutcome.ended result)
    else (session1, TurnOutcome.continued scene.choices)

/-- firstMaxFrom is the specification of the winner scan of
`getRoundWinner`: starting from candidate `w`, the first entry of the
list whose final score is maximal (a later entry replaces the candidate
only on a strict improvement). -/
def firstMaxFrom (w : String × EndingResult) :
    List (String × EndingResult) → String × EndingResult
  | [] => w
  | e :: es =>
    if w.2.final_score < e.2.final_score then firstMaxFrom e es
    else firstMaxFrom w es

/-- Fixture for the round-manager staleness scenario: an ending result
recorded by the single finisher of a closed round. -/
def staleEnding : EndingResult :=
  { ending_id := "E-STALE-01"
    ending_title := "The Stale Door"
    ending_text := "over"
    final_score := 300
    tier := Tier.B }

/-- Fixture: a round that has been closed by its first completion. -/
def staleRound : RoundState :=
  { roundId := "round-1"
    seasonId := "season-1"
    prizePool := 5
    activePlayers := []
    completedPlayers := [("alice", staleEnding)]
    isActive := false }

/-- Fixture: a store whose current round id is bound to the closed
round. -/
def staleStore : SessionStore :=
  { activeSessions := []
    rounds := [("round-1", staleRound)]
    leaderboard := []
    currentRoundId := some "round-1"
    currentSeasonId := "season-1" }

/-- Fixture for the session-completion scenario: an active session. -/
def endWSession : GameSession :=
  { sessionId := "sess-bob-1"
    userId := "bob"
    smartAccountAddress := "0xB0B"
    channelId := "chan-1"
    state := createInitialState
    tipAmount := 3
    actionHistory := []
    isActive := true
    endingId := none
    finalScore := none }

/-- Fixture: a live round whose only active player is the session's. -/
def endWRound : RoundState :=
  { roundId := "round-8"
    seasonId := "season-1"
    prizePool := 3
    activePlayers := ["bob"]
    completedPlayers := []
    isActive := true }

/-- Fixture: the store holding the live round and the session under
both identifier keys. -/
def endWStore : SessionStore :=
  { activeSessions := [("bob", endWSession), ("0xb0b", endWSession)]
    rounds := [("round-8", endWRound)]
    leaderboard := []
    currentRoundId := some "round-8"
    currentSeasonId := "season-1" }

/-- Fixture: the generated ending handed to `endSession`. -/
def endWEnding : GPTEndingResponse :=
  { ending_id := "E-GLASS-CORRIDOR-07"
    ending_title := "Glass Corridor"
    ending_text := "done"
    proposed_score := 500 }

/-- Fixture for winner selection: a 300-point ending result. -/
def winnerExE300 : EndingResult :=
  { ending_id := "E-LOW"
    ending_title := "Low"
    ending_text := "l"
    final_score := 300
    tier := Tier.B }

/-- Fixture for winner selection: a 450-point ending result. -/
def winnerExE450 : EndingResult :=
  { ending_id := "E-HIGH"
    ending_title := "High"
    ending_text := "h"
    final_score := 450
    tier := Tier.S }

/-- Fixture: a round with two completed players scoring 300 and 450. -/
def winnerExRound : RoundState :=
  { roundId := "round-9"
    seasonId := "season-1"
    prizePool := 0
    activePlayers := []
    completedPlayers := [("dave", winnerExE300), ("carol", winnerExE450)]
    isActive := false }

/-- Fixture: a store holding the two-player round. -/
def winnerExStore : SessionStore :=
  { activeSessions := []
    rounds := [("round-9", winnerExRound)]
    leaderboard := []
    currentRoundId := some "round-9"
    currentSeasonId := "season-1" }

/-- Fixture for generator-failure scenarios: an active session one time
unit away from forced termination. -/
def genFailSession : GameSession :=
  { sessionId := "sess-eve-1"
    userId := "eve"
    smartAccountAddress := "0xE"
    channelId := "chan-2"
    state := { time_remaining := 1
               trust := 0
               sanity := 100
               insight := 0
               system_access := 0
               morality := 0
               turn := 5 }
    tipAmount := 0
    actionHistory := ["game_start"]
    isActive := true
    endingId := none
    finalScore := none }

/-- Fixture: a successful scene generation whose empty delta lets the
time decrement trigger the ending path. -/
def genFailScene : GPTSceneResponse :=
  { scene_text := "the lights die"
    state_changes := emptyDelta
    choices := ["left", "right"] }

/-- Fixture for correlation scenarios: an active session for alice. -/
def c5Session : GameSession :=
  { sessionId := "sess-alice-1"
    userId := "alice"
    smartAccountAddress := "0xA11CE"
    channelId := "chan-3"
    state := createInitialState
    tipAmount := 1
    actionHistory := []
    isActive := true
    endingId := none
    finalScore := none }

/-- Fixture: the session store keyed by alice's two identifiers. -/
def c5Store : SessionStore :=
  { activeSessions := [("alice", c5Session), ("0xa11ce", c5Session)]
    rounds := []
    leaderboard := []
    currentRoundId := none
    currentSeasonId := "season-1" }

/-- Fixture: the interaction map after one prompt offering three
choices, stored under both the form id and the event id as
`sendSceneWithButtons` does. -/
def c5Imap : List (String × InteractionData) :=
  storeInteraction [] "scene-alice-1" "evt-77" "alice"
    ["go left", "go right", "wait"]

/-- Fixture: a response echoing the form id and clicking the button for
index 1. -/
def c5Event1 : InteractionEvent :=
  { userId := "alice"
    requestId := "scene-alice-1"
    isForm := true
    components := [{ id := "choice-1", isButton := true }] }

/-- Fixture: a second response against the same prompt record, echoing
its other stored key (the event id). -/
def c5Event2 : InteractionEvent :=
  { userId := "alice"
    requestId := "evt-77"
    isForm := true
    components := [{ id := "choice-1", isButton := true }] }

/-- Characterisation of `applyStateChanges` field by field, proved by
exhausting the presence pattern of the delta. -/
theorem applyStateChanges_eq (s : PlayerState) (c : StateDelta) :
    applyStateChanges s c =
      { time_remaining := match c.time_remaining with
          | some v => max 0 (min 12 v)
          | none => max 0 (s.time_remaining - 1)
        trust := match c.trust with
          | some v => max (-3) (min 3 v)
          | none => s.trust
        sanity := match c.sanity with
          | some v => max 0 (min 100 v)
          | none => s.sanity
        insight := match c.insight with
          | some v => max 0 (min 100 v)
          | none => s.insight
        system_access := match c.system_access with
          | some v => max 0 (min 3 v)
          | none => s.system_access
        morality := match c.morality with
          | some v => max (-100) (min 100 v)
          | none => s.morality
        turn := match c.turn with
          | some t => t
          | none => s.turn + 1 } := by
  obtain ⟨t₁, t₂, t₃, t₄, t₅, t₆, t₇⟩ := c
  cases t₁ <;> cases t₂ <;> cases t₃ <;> cases t₄ <;> cases t₅ <;>
    cases t₆ <;> cases t₇ <;> rfl

/-- The integer form of `computeScore` agrees with the literal reading
of the source expression: `Math.max(0, Math.round(raw))` over exact
rationals. -/
theorem computeScore_eq_round (s : PlayerState) :
    computeScore s = max 0 (jsRound (scoreRaw s)) := by
  unfold computeScore jsRound scoreRaw
  have h : (100 : ℚ) + (s.insight : ℚ) / 2 + (s.system_access : ℚ) * 50 +
      (s.trust : ℚ) * 20 - ((100 : ℚ) - (s.sanity : ℚ)) / 2 +
      (s.morality : ℚ) / 5 + 1 / 2 =
      ((1000 + 5 * s.insight + 500 * s.system_access + 200 * s.trust -
        5 * (100 - s.sanity) + 2 * s.morality + 5 : ℤ) : ℚ) /
        ((10 : ℕ) : ℚ) := by
    push_cast
    ring
  rw [h, Rat.floor_intCast_div_natCast]
  norm_num

/-- C1: counterexample — `applyStateChanges` has no minimum-turn safety
clamp. From the fresh initial state, a delta proposing
`time_remaining = 0` yields an output with `time_remaining = 0` at
turn 2 < 10, and a delta proposing `system_access = 3` yields an output
with `system_access = 3` at turn 2 < 10, contradicting the claim that
while `turn < 10` the output never has `time_remaining = 0` or
`system_access = 3`. -/
theorem c1_counterexample :
    ((applyStateChanges createInitialState
        { emptyDelta with time_remaining := some 0 }).turn < 10 ∧
      (applyStateChanges createInitialState
        { emptyDelta with time_remaining := some 0 }).time_remaining = 0) ∧
    ((applyStateChanges createInitialState
        { emptyDelta with system_access := some 3 }).turn < 10 ∧
      (applyStateChanges createInitialState
        { emptyDelta with system_access := some 3 }).system_access = 3) := by
  decide

/-- C1 (amended): the only protection `applyStateChanges` gives the two
terminal meters is the plain range clamp, independent of the turn
counter: for an input whose `time_remaining` lies in 0..12 and whose
`system_access` lies in 0..3, the output keeps both meters inside those
ranges for every delta, but nothing forces `time_remaining ≥ 1` or
`system_access ≤ 2` before turn 10. -/
theorem c1_only_range_clamp (s : PlayerState) (c : StateDelta)
    (h1 : 0 ≤ s.time_remaining) (h2 : s.time_remaining ≤ 12)
    (h3 : 0 ≤ s.system_access) (h4 : s.system_access ≤ 3) :
    0 ≤ (applyStateChanges s c).time_remaining ∧
    (applyStateChanges s c).time_remaining ≤ 12 ∧
    0 ≤ (applyStateChanges s c).system_access ∧
    (applyStateChanges s c).system_access ≤ 3 := by
  obtain ⟨t1, t2, t3, t4, t5, t6, t7⟩ := c
  rw [applyStateChanges_eq]
  cases t1 <;> cases t5 <;> simp <;> omega

/-- C1 witness: the amended range statement instantiated at the fresh
initial state and the empty delta. -/
theorem c1_only_range_clamp_witness :
    0 ≤ (applyStateChanges createInitialState emptyDelta).time_remaining ∧
    (applyStateChanges createInitialState emptyDelta).time_remaining ≤ 12 ∧
    0 ≤ (applyStateChanges createInitialState emptyDelta).system_access ∧
    (applyStateChanges createInitialState emptyDelta).system_access ≤ 3 :=
  c1_only_range_clamp createInitialState emptyDelta (by decide) (by decide)
    (by decide) (by decide)

/-- C2: counterexample — `shouldEndGame` has no minimum-turn gate and
its turn threshold is 20, not 10: a state at turn 1 with
`time_remaining = 0` already ends the game, and a state at turn 10 with
time left and no system access does not. -/
theorem c2_counterexample :
    (({ createInitialState with time_remaining := 0 } : PlayerState).turn
        < 10 ∧
      shouldEndGame { createInitialState with time_remaining := 0 } =
        true) ∧
    (10 ≤ ({ createInitialState with turn := 10 } : PlayerState).turn ∧
      shouldEndGame { createInitialState with turn := 10 } = false) := by
  decide

/-- C2 (amended): `shouldEndGame` returns true exactly when
`turn ≥ 20`, or `time_remaining ≤ 0`, or `system_access ≥ 3`; the three
triggers are unconditional, with no minimum-turn gate. -/
theorem c2_shouldEndGame_iff (s : PlayerState) :
    shouldEndGame s = true ↔
      20 ≤ s.turn ∨ s.time_remaining ≤ 0 ∨ 3 ≤ s.system_access := by
  simp [shouldEndGame, or_assoc]

/-- C3: counterexample — on the spec's example state the score is
indeed 310, but `getTier 310` is `B` (the `A` tier needs 350), not `A`
as the claim states. -/
theorem c3_counterexample :
    computeScore ⟨0, 2, 40, 80, 3, 50, 15⟩ = 310 ∧
    getTier (computeScore ⟨0, 2, 40, 80, 3, 50, 15⟩) ≠ Tier.A := by
  decide

/-- C3 (amended): `computeScore` equals
`max 0 (round (100 + insight/2 + system_access*50 + trust*20
- (100 - sanity)/2 + morality/5))`, its result is never negative, and on
the state with turn 15, insight 80, system_access 3, trust 2, sanity 40
and morality 50 it returns 310, whose tier is `B`. -/
theorem c3_computeScore_correct :
    (∀ s : PlayerState, computeScore s = max 0 (jsRound (scoreRaw s))) ∧
    (∀ s : PlayerState, 0 ≤ computeScore s) ∧
    computeScore ⟨0, 2, 40, 80, 3, 50, 15⟩ = 310 ∧
    getTier (computeScore ⟨0, 2, 40, 80, 3, 50, 15⟩) = Tier.B :=
  ⟨computeScore_eq_round, fun _ => le_max_left _ _, by decide, by decide⟩

/-- C7: counterexample — `turn` is not non-decreasing: the delta may
supply any turn value, which is copied unclamped, so from a state at
turn 5 a delta with `turn = 0` yields an output at turn 0. -/
theorem c7_counterexample :
    (applyStateChanges { createInitialState with turn := 5 }
        { emptyDelta with turn := some 0 }).turn <
      ({ createInitialState with turn := 5 } : PlayerState).turn := by
  decide

/-- C7 (amended): `applyStateChanges` is total, and for every starting
state whose meters are in their declared ranges and every delta the
six meters of the output stay in range; the output turn equals the
delta's turn when supplied and the input turn plus one otherwise, so
turn is non-decreasing whenever the delta does not supply a turn
value. -/
theorem c7_meter_ranges (s : PlayerState) (c : StateDelta)
    (h1 : 0 ≤ s.time_remaining) (h2 : s.time_remaining ≤ 12)
    (h3 : -3 ≤ s.trust) (h4 : s.trust ≤ 3)
    (h5 : 0 ≤ s.sanity) (h6 : s.sanity ≤ 100)
    (h7 : 0 ≤ s.insight) (h8 : s.insight ≤ 100)
    (h9 : 0 ≤ s.system_access) (h10 : s.system_access ≤ 3)
    (h11 : -100 ≤ s.morality) (h12 : s.morality ≤ 100) :
    (0 ≤ (applyStateChanges s c).time_remaining ∧
      (applyStateChanges s c).time_remaining ≤ 12) ∧
    (-3 ≤ (applyStateChanges s c).trust ∧
      (applyStateChanges s c).trust ≤ 3) ∧
    (0 ≤ (applyStateChanges s c).sanity ∧
      (applyStateChanges s c).sanity ≤ 100) ∧
    (0 ≤ (applyStateChanges s c).insight ∧
      (applyStateChanges s c).insight ≤ 100) ∧
    (0 ≤ (applyStateChanges s c).system_access ∧
      (applyStateChanges s c).system_access ≤ 3) ∧
    (-100 ≤ (applyStateChanges s c).morality ∧
      (applyStateChanges s c).morality ≤ 100) ∧
    ((applyStateChanges s c).turn = match c.turn with
      | some t => t
      | none => s.turn + 1) ∧
    s.turn ≤ (applyStateChanges s { c with turn := none }).turn := by
  obtain ⟨t1, t2, t3, t4, t5, t6, t7⟩ := c
  rw [applyStateChanges_eq, applyStateChanges_eq]
  refine ⟨?_, ?_, ?_, ?_, ?_, ?_, ?_, ?_⟩
  · cases t1 <;> (simp; try omega)
  · cases t2 <;> (simp; try omega)
  · cases t3 <;> (simp; try omega)
  · cases t4 <;> (simp; try omega)
  · cases t5 <;> (simp; try omega)
  · cases t6 <;> (simp; try omega)
  · cases t7 <;> simp
  · simp

/-- C7 witness: the amended statement instantiated at the fresh
initial state and the empty delta. -/
theorem c7_meter_ranges_witness :
    (0 ≤ (applyStateChanges createInitialState emptyDelta).time_remaining ∧
      (applyStateChanges createInitialState emptyDelta).time_remaining ≤
        12) ∧
    (-3 ≤ (applyStateChanges createInitialState emptyDelta).trust ∧
      (applyStateChanges createInitialState emptyDelta).trust ≤ 3) ∧
    (0 ≤ (applyStateChanges createInitialState emptyDelta).sanity ∧
      (applyStateChanges createInitialState emptyDelta).sanity ≤ 100) ∧
    (0 ≤ (applyStateChanges createInitialState emptyDelta).insight ∧
      (applyStateChanges createInitialState emptyDelta).insight ≤ 100) ∧
    (0 ≤ (applyStateChanges createInitialState emptyDelta).system_access ∧
      (applyStateChanges createInitialState emptyDelta).system_access ≤
        3) ∧
    (-100 ≤ (applyStateChanges createInitialState emptyDelta).morality ∧
      (applyStateChanges createInitialState emptyDelta).morality ≤ 100) ∧
    ((applyStateChanges createInitialState emptyDelta).turn =
      match emptyDelta.turn with
      | some t => t
      | none => createInitialState.turn + 1) ∧
    createInitialState.turn ≤
      (applyStateChanges createInitialState
        { emptyDelta with turn := none }).turn :=
  c7_meter_ranges createInitialState emptyDelta (by decide) (by decide)
    (by decide) (by decide) (by decide) (by decide) (by decide)
    (by decide) (by decide) (by decide) (by decide) (by decide)

/-- C10: for every starting state and delta, each meter present in the
delta is set to the delta's value clamped into that meter's range, each
absent meter is left unchanged except `time_remaining` (decremented by
one and floored at zero when absent) and `turn` (the delta's value if
supplied, else incremented by one); and from the fresh initial state,
applying the delta that only sets `insight` to 10 yields turn 2,
`time_remaining` 11 and insight 10 with all other meters unchanged, on
which `shouldEndGame` is false. -/
theorem c10_delta_application :
    (∀ (s : PlayerState) (c : StateDelta),
      applyStateChanges s c =
        { time_remaining := match c.time_remaining with
            | some v => max 0 (min 12 v)
            | none => max 0 (s.time_remaining - 1)
          trust := match c.trust with
            | some v => max (-3) (min 3 v)
            | none => s.trust
          sanity := match c.sanity with
            | some v => max 0 (min 100 v)
            | none => s.sanity
          insight := match c.insight with
            | some v => max 0 (min 100 v)
            | none => s.insight
          system_access := match c.system_access with
            | some v => max 0 (min 3 v)
            | none => s.system_access
          morality := match c.morality with
            | some v => max (-100) (min 100 v)
            | none => s.morality
          turn := match c.turn with
            | some t => t
            | none => s.turn + 1 }) ∧
    applyStateChanges createInitialState
        { emptyDelta with insight := some 10 } =
      { time_remaining := 11
        trust := 0
        sanity := 100
        insight := 10
        system_access := 0
        morality := 0
        turn := 2 } ∧
    shouldEndGame (applyStateChanges createInitialState
      { emptyDelta with insight := some 10 }) = false :=
  ⟨applyStateChanges_eq, by decide, by decide⟩

/-- Looking a key up in a map right after setting it returns the value
just set, for both the update-in-place and the append behaviour of
`mapSet`. -/
theorem mapGet_mapSet_self {α : Type} (m : List (String × α)) (k : String)
    (v : α) : mapGet (mapSet m k v) k = some v := by
  unfold mapGet mapSet
  by_cases h : m.any (fun kv => kv.1 = k)
  · simp only [h, if_true]
    induction m with
    | nil => simp at h
    | cons a rest ih =>
      by_cases ha : a.1 = k
      · simp [List.find?, ha]
      · have h' : rest.any (fun kv => decide (kv.1 = k)) = true := by
          simpa [ha] using h
        simpa [List.find?, ha] using ih h'
  · simp only [h, if_false]
    have hfind : m.find? (fun kv => kv.1 = k) = none := by
      rw [List.find?_eq_none]
      intro x hx hxk
      exact h (List.any_eq_true.mpr ⟨x, hx, hxk⟩)
    simp [h, List.find?_append, hfind, List.find?]

/-- Looking a key up right after deleting it fails. -/
theorem mapGet_mapDelete_self {α : Type} (m : List (String × α))
    (k : String) : mapGet (mapDelete m k) k = none := by
  simp only [mapGet, mapDelete, Option.map_eq_none']
  rw [List.find?_eq_none]
  intro x hx
  simp only [List.mem_filter] at hx
  simpa using hx.2

/-- An element is gone from a set right after deleting it. -/
theorem setDelete_not_mem (s : List String) (x : String) :
    x ∉ setDelete s x := by
  simp [setDelete, List.mem_filter]

/-- Setting a key leaves the map nonempty. -/
theorem mapSet_length_pos {α : Type} (m : List (String × α)) (k : String)
    (v : α) : 1 ≤ (mapSet m k v).length := by
  unfold mapSet
  split
  · rename_i h
    cases m with
    | nil => simp at h
    | cons a rest => simp
  · simp

/-- When the current round id is bound to a registered round,
`getCurrentRound` returns that round and leaves the store unchanged —
whatever that round's `isActive` flag and completion count are. -/
theorem getCurrentRound_of_bound (store : SessionStore) (rid : String)
    (round : RoundState) (freshId : String)
    (hr : store.currentRoundId = some rid)
    (hround : mapGet store.rounds rid = some round) :
    getCurrentRound store freshId = (round, store) := by
  unfold getCurrentRound
  simp [hr, hround, Option.bind]

/-- Unfolding the first step of the winner scan when the head already
beats the initial sentinel score. -/
theorem pickWinner_start (e : String × EndingResult)
    (es : List (String × EndingResult)) (he : (-1 : Int) < e.2.final_score) :
    pickWinner none (-1) (e :: es) =
      pickWinner (some e) e.2.final_score es := by
  rw [pickWinner, if_pos he]

/-- The pending-winner scan started from a live candidate computes the
first maximum. -/
theorem pickWinner_some (w : String × EndingResult)
    (l : List (String × EndingResult)) :
    pickWinner (some w) w.2.final_score l = some (firstMaxFrom w l) := by
  induction l generalizing w with
  | nil => rfl
  | cons e es ih =>
    unfold pickWinner firstMaxFrom
    by_cases h : w.2.final_score < e.2.final_score
    · simp [h, ih]
    · simp [h, ih]

/-- Every score in scope is bounded by the score of the first
maximum. -/
theorem firstMaxFrom_le (w : String × EndingResult)
    (l : List (String × EndingResult)) :
    ∀ x ∈ w :: l, x.2.final_score ≤ (firstMaxFrom w l).2.final_score := by
  induction l generalizing w with
  | nil =>
    intro x hx
    rw [List.mem_singleton] at hx
    subst hx
    exact le_refl _
  | cons e es ih =>
    intro x hx
    unfold firstMaxFrom
    by_cases h : w.2.final_score < e.2.final_score
    · rw [if_pos h]
      rcases List.mem_cons.mp hx with h1 | hx'
      · subst h1
        exact le_of_lt (lt_of_lt_of_le h (ih e e (by simp)))
      · exact ih e x hx'
    · rw [if_neg h]
      rcases List.mem_cons.mp hx with h1 | hx'
      · subst h1
        exact ih x x (by simp)
      · rcases List.mem_cons.mp hx' with h2 | hx''
        · subst h2
          exact le_trans (le_of_not_lt h) (ih w w (by simp))
        · exact ih w x (List.mem_cons_of_mem w hx'')

/-- The first maximum splits the list into a strictly-smaller prefix,
itself, and a tail: this is exactly first-seen-wins-ties. -/
theorem firstMaxFrom_decomp (w : String × EndingResult)
    (l : List (String × EndingResult)) :
    ∃ l₁ l₂, w :: l = l₁ ++ firstMaxFrom w l :: l₂ ∧
      ∀ x ∈ l₁, x.2.final_score < (firstMaxFrom w l).2.final_score := by
  induction l generalizing w with
  | nil => exact ⟨[], [], rfl, by simp⟩
  | cons e es ih =>
    unfold firstMaxFrom
    by_cases h : w.2.final_score < e.2.final_score
    · rw [if_pos h]
      obtain ⟨l₁, l₂, heq, hlt⟩ := ih e
      refine ⟨w :: l₁, l₂, ?_, ?_⟩
      · rw [List.cons_append, ← heq]
      · intro x hx
        rcases List.mem_cons.mp hx with h1 | hx'
        · subst h1
          exact lt_of_lt_of_le h (firstMaxFrom_le e es e (by simp))
        · exact hlt x hx'
    · rw [if_neg h]
      obtain ⟨l₁, l₂, heq, hlt⟩ := ih w
      cases l₁ with
      | nil =>
        simp only [List.nil_append] at heq
        have hw : w = firstMaxFrom w es := (List.cons_eq_cons.mp heq).1
        refine ⟨[], e :: es, ?_, by simp⟩
        rw [List.nil_append, ← hw]
      | cons a l₁' =>
        rw [List.cons_append] at heq
        obtain ⟨hwa, hes⟩ := List.cons_eq_cons.mp heq
        subst hwa
        refine ⟨w :: e :: l₁', l₂, ?_, ?_⟩
        · rw [List.cons_append, List.cons_append, ← hes]
        · intro x hx
          have hwlt : w.2.final_score <
              (firstMaxFrom w es).2.final_score := hlt w (by simp)
          rcases List.mem_cons.mp hx with h1 | hx'
          · subst h1
            exact hwlt
          · rcases List.mem_cons.mp hx' with h2 | hx''
            · subst h2
              exact lt_of_le_of_lt (le_of_not_lt h) hwlt
            · exact hlt x (List.mem_cons_of_mem w hx'')

/-- C4: the staleness check of `getCurrentRound` is dead code — when the
current round id is bound to a round that is closed (`isActive = false`)
and already has a completion, the function returns that stale closed
round unchanged instead of minting a new one, contradicting the claimed
"otherwise mints a new round" behaviour (and the project README's "new
rounds start automatically when previous round ends"). -/
theorem c4_stale_closed_round_returned :
    getCurrentRound staleStore "round-2" = (staleRound, staleStore) ∧
    staleRound.isActive = false ∧
    staleRound.completedPlayers.length = 1 := by
  decide

/-- C8: ending a registered player's session resolves the current round,
removes the player from its active set, records the ending result under
the player in its completed map, closes the round (`isActive = false`,
the completed count having reached one), and appends exactly one
leaderboard entry carrying the round's season, the session id, the
player, the score, the ending id and the tier. -/
theorem c8_endSession_closes_round (store : SessionStore) (userId : String)
    (session : GameSession) (rid : String) (round : RoundState)
    (ending : GPTEndingResponse) (finalScore : Int) (tier : Tier)
    (freshId : String)
    (hs : mapGet store.activeSessions userId = some session)
    (hr : store.currentRoundId = some rid)
    (hround : mapGet store.rounds rid = some round)
    (hkey : round.roundId = rid) :
    ∃ r', mapGet (endSession store userId ending finalScore tier
        freshId).rounds rid = some r' ∧
      r'.isActive = false ∧
      mapGet r'.completedPlayers userId = some
        { ending_id := ending.ending_id
          ending_title := ending.ending_title
          ending_text := ending.ending_text
          final_score := finalScore
          tier := tier } ∧
      userId ∉ r'.activePlayers ∧
      (endSession store userId ending finalScore tier freshId).leaderboard =
        store.leaderboard ++
          [{ season_id := round.seasonId
             session_id := session.sessionId
             wallet := userId
             score := finalScore
             ending_id := ending.ending_id
             tier := tier }] := by
  subst hkey
  unfold endSession
  rw [hs, getCurrentRound_of_bound store round.roundId round freshId hr
    hround]
  dsimp only
  have hlen : 1 ≤ (mapSet round.completedPlayers userId
      { ending_id := ending.ending_id
        ending_title := ending.ending_title
        ending_text := ending.ending_text
        final_score := finalScore
        tier := tier }).length := mapSet_length_pos _ _ _
  refine ⟨_, mapGet_mapSet_self _ _ _, ?_, ?_, ?_, rfl⟩
  · simp [hlen]
  · simp only [if_pos hlen]
    exact mapGet_mapSet_self _ _ _
  · simp only [if_pos hlen]
    exact setDelete_not_mem _ _

/-- C8 witness: the completion statement instantiated at a store with
one active player in a live round. -/
theorem c8_endSession_closes_round_witness :
    ∃ r', mapGet (endSession endWStore "bob" endWEnding 310 Tier.B
        "round-x").rounds "round-8" = some r' ∧
      r'.isActive = false ∧
      mapGet r'.completedPlayers "bob" = some
        { ending_id := endWEnding.ending_id
          ending_title := endWEnding.ending_title
          ending_text := endWEnding.ending_text
          final_score := 310
          tier := Tier.B } ∧
      "bob" ∉ r'.activePlayers ∧
      (endSession endWStore "bob" endWEnding 310 Tier.B
          "round-x").leaderboard =
        endWStore.leaderboard ++
          [{ season_id := endWRound.seasonId
             session_id := endWSession.sessionId
             wallet := "bob"
             score := 310
             ending_id := endWEnding.ending_id
             tier := Tier.B }] :=
  c8_endSession_closes_round endWStore "bob" endWSession "round-8"
    endWRound endWEnding 310 Tier.B "round-x" (by decide) (by decide)
    (by decide) (by decide)

/-- C9: `getRoundWinner` returns a completed entry whose score bounds
every completed score, and the entries strictly before it in completion
order all score strictly less — so the strictly-highest scorer wins and
ties go to whoever completed first; moreover on a round whose two
completions score 300 and then 450, it returns the 450-score player. -/
theorem c9_getRoundWinner_first_max (store : SessionStore)
    (roundId : String) (round : RoundState)
    (hround : mapGet store.rounds roundId = some round)
    (hnn : ∀ e ∈ round.completedPlayers, 0 ≤ e.2.final_score)
    (hne : round.completedPlayers ≠ []) :
    (∃ w l₁ l₂, getRoundWinner store roundId = some w ∧
      round.completedPlayers = l₁ ++ w :: l₂ ∧
      (∀ e ∈ round.completedPlayers,
        e.2.final_score ≤ w.2.final_score) ∧
      (∀ e ∈ l₁, e.2.final_score < w.2.final_score)) ∧
    getRoundWinner winnerExStore "round-9" =
      some ("carol", winnerExE450) := by
  constructor
  · cases hc : round.completedPlayers with
    | nil => exact absurd hc hne
    | cons e es =>
      have he0 : 0 ≤ e.2.final_score := hnn e (by rw [hc]; simp)
      have hwin : getRoundWinner store roundId =
          some (firstMaxFrom e es) := by
        unfold getRoundWinner
        rw [hround]
        dsimp only
        rw [hc, if_neg (by simp), pickWinner_start e es (by omega),
          pickWinner_some]
      obtain ⟨l₁, l₂, heq, hlt⟩ := firstMaxFrom_decomp e es
      refine ⟨firstMaxFrom e es, l₁, l₂, hwin, heq, ?_, hlt⟩
      intro x hx
      exact firstMaxFrom_le e es x hx
  · decide

/-- C9 witness: winner selection instantiated at the two-player round
scoring 300 and 450. -/
theorem c9_getRoundWinner_first_max_witness :
    (∃ w l₁ l₂, getRoundWinner winnerExStore "round-9" = some w ∧
      winnerExRound.completedPlayers = l₁ ++ w :: l₂ ∧
      (∀ e ∈ winnerExRound.completedPlayers,
        e.2.final_score ≤ w.2.final_score) ∧
      (∀ e ∈ l₁, e.2.final_score < w.2.final_score)) ∧
    getRoundWinner winnerExStore "round-9" =
      some ("carol", winnerExE450) :=
  c9_getRoundWinner_first_max winnerExStore "round-9" winnerExRound
    (by decide) (by decide) (by decide)

/-- Inversion of a successful button resolution: it can only come out
of the final branch of the handler, so the form flag was set and the
updated map is exactly the original with the echoed request id
deleted. -/
theorem handle_resolved_inv (imap : List (String × InteractionData))
    (store : SessionStore) (ev : InteractionEvent) (choice : String)
    (imap' : List (String × InteractionData))
    (h : handleInteractionResponse imap store ev =
      (HandlerResult.resolved choice, imap')) :
    imap' = mapDelete imap ev.requestId ∧ ev.isForm = true := by
  unfold handleInteractionResponse at h
  by_cases hf : ev.isForm = false
  · rw [if_pos hf] at h
    exact absurd (congrArg Prod.fst h) (by simp)
  · refine ⟨?_, by revert hf; cases ev.isForm <;> simp⟩
    rw [if_neg hf] at h
    rcases hlook : lookupInteraction imap ev.requestId with _ | d
    · rw [hlook] at h
      exact absurd (congrArg Prod.fst h) (by simp)
    · rw [hlook] at h
      dsimp only at h
      by_cases hu : d.userId ≠ ev.userId
      · rw [if_pos hu] at h
        exact absurd (congrArg Prod.fst h) (by simp)
      · rw [if_neg hu] at h
        rcases hsess : getSession store ev.userId with _ | s
        · rw [hsess] at h
          exact absurd (congrArg Prod.fst h) (by simp)
        · rw [hsess] at h
          dsimp only at h
          by_cases hact : s.isActive = false
          · rw [if_pos hact] at h
            exact absurd (congrArg Prod.fst h) (by simp)
          · rw [if_neg hact] at h
            rcases hfind : findSelectedChoice d.choices ev.components
              with _ | c
            · rw [hfind] at h
              exact absurd (congrArg Prod.fst h) (by simp)
            · rw [hfind] at h
              exact (congrArg Prod.snd h).symm

/-- Every outcome of the handler other than a resolution leaves the
interaction map exactly as it was. -/
theorem handle_error_map_unchanged (imap : List (String × InteractionData))
    (store : SessionStore) (ev : InteractionEvent) (res : HandlerResult)
    (imap' : List (String × InteractionData))
    (h : handleInteractionResponse imap store ev = (res, imap'))
    (hres : ∀ choice, res ≠ HandlerResult.resolved choice) :
    imap' = imap := by
  unfold handleInteractionResponse at h
  by_cases hf : ev.isForm = false
  · rw [if_pos hf] at h
    exact (congrArg Prod.snd h).symm
  · rw [if_neg hf] at h
    rcases hlook : lookupInteraction imap ev.requestId with _ | d
    · rw [hlook] at h
      exact (congrArg Prod.snd h).symm
    · rw [hlook] at h
      dsimp only at h
      by_cases hu : d.userId ≠ ev.userId
      · rw [if_pos hu] at h
        exact (congrArg Prod.snd h).symm
      · rw [if_neg hu] at h
        rcases hsess : getSession store ev.userId with _ | s
        · rw [hsess] at h
          exact (congrArg Prod.snd h).symm
        · rw [hsess] at h
          dsimp only at h
          by_cases hact : s.isActive = false
          · rw [if_pos hact] at h
            exact (congrArg Prod.snd h).symm
          · rw [if_neg hact] at h
            rcases hfind : findSelectedChoice d.choices ev.components
              with _ | c
            · rw [hfind] at h
              exact (congrArg Prod.snd h).symm
            · rw [hfind] at h
              exact absurd (congrArg Prod.fst h).symm (hres c)

/-- C5: counterexample — the pending record is stored under two keys
(form id and event id) but resolution deletes only the echoed key, so
after a first response has successfully resolved the record, a second
response against the same record through its other key resolves again
instead of being rejected as a CorrelationMiss. -/
theorem c5_counterexample :
    (handleInteractionResponse c5Imap c5Store c5Event1).1 =
      HandlerResult.resolved "go right" ∧
    (handleInteractionResponse
        (handleInteractionResponse c5Imap c5Store c5Event1).2 c5Store
        c5Event2).1 = HandlerResult.resolved "go right" ∧
    (handleInteractionResponse
        (handleInteractionResponse c5Imap c5Store c5Event1).2 c5Store
        c5Event2).1 ≠ HandlerResult.correlationMiss := by
  decide

/-- C5 (amended): a found record is validated against the responding
player's identity before use; a successful resolution deletes exactly
the echoed key, after which a response echoing that same identifier is
rejected as a CorrelationMiss provided no remaining stored key stands in
substring relation to it (the record's alias key, when echoed instead,
still resolves); and every non-resolved outcome — including an invalid
or out-of-range choice index — leaves the interaction map, and hence all
session state, untouched. -/
theorem c5_correlation_discipline :
    (∀ (imap : List (String × InteractionData)) (store : SessionStore)
        (ev : InteractionEvent) (d : InteractionData),
      ev.isForm = true →
      lookupInteraction imap ev.requestId = some d →
      d.userId ≠ ev.userId →
      handleInteractionResponse imap store ev =
        (HandlerResult.wrongUser, imap)) ∧
    (∀ (imap : List (String × InteractionData)) (store : SessionStore)
        (ev : InteractionEvent) (choice : String)
        (imap' : List (String × InteractionData)),
      handleInteractionResponse imap store ev =
        (HandlerResult.resolved choice, imap') →
      imap' = mapDelete imap ev.requestId ∧
      mapGet imap' ev.requestId = none ∧
      ((∀ kv ∈ imap', includesJS kv.1 ev.requestId = false ∧
          includesJS ev.requestId kv.1 = false) →
        handleInteractionResponse imap' store ev =
          (HandlerResult.correlationMiss, imap'))) ∧
    (∀ (imap : List (String × InteractionData)) (store : SessionStore)
        (ev : InteractionEvent) (res : HandlerResult)
        (imap' : List (String × InteractionData)),
      handleInteractionResponse imap store ev = (res, imap') →
      (∀ choice, res ≠ HandlerResult.resolved choice) →
      imap' = imap) := by
  refine ⟨?_, ?_, handle_error_map_unchanged⟩
  · intro imap store ev d hform hlook hne
    unfold handleInteractionResponse
    rw [if_neg (by rw [hform]; simp), hlook]
    dsimp only
    rw [if_pos hne]
  · intro imap store ev choice imap' h
    obtain ⟨hdel, hform⟩ := handle_resolved_inv imap store ev choice
      imap' h
    have hget : mapGet imap' ev.requestId = none := by
      rw [hdel]
      exact mapGet_mapDelete_self imap ev.requestId
    refine ⟨hdel, hget, ?_⟩
    intro hclean
    have hmiss : lookupInteraction imap' ev.requestId = none := by
      unfold lookupInteraction
      rw [hget]
      have hfind : imap'.find? (fun kv =>
          includesJS kv.1 ev.requestId ||
            includesJS ev.requestId kv.1) = none := by
        rw [List.find?_eq_none]
        intro kv hkv
        have := hclean kv hkv
        simp [this.1, this.2]
      rw [hfind]
      rfl
    unfold handleInteractionResponse
    rw [if_neg (by rw [hform]; simp), hmiss]

/-- C5 witness: the discipline statement instantiated — a stranger's
click on alice's prompt is rejected, alice's own resolution deletes the
echoed key, and the map is untouched by a non-form event. -/
theorem c5_correlation_discipline_witness :
    handleInteractionResponse c5Imap c5Store
        { userId := "mallory"
          requestId := "scene-alice-1"
          isForm := true
          components := [{ id := "choice-0", isButton := true }] } =
      (HandlerResult.wrongUser, c5Imap) ∧
    (handleInteractionResponse c5Imap c5Store c5Event1).2 =
      mapDelete c5Imap "scene-alice-1" ∧
    [] = ([] : List (String × InteractionData)) :=
  ⟨c5_correlation_discipline.1 c5Imap c5Store
      { userId := "mallory"
        requestId := "scene-alice-1"
        isForm := true
        components := [{ id := "choice-0", isButton := true }] }
      ⟨"alice", ["go left", "go right", "wait"]⟩ (by decide) (by decide)
      (by decide),
    (c5_correlation_discipline.2.1 c5Imap c5Store c5Event1 "go right"
      (handleInteractionResponse c5Imap c5Store c5Event1).2
      (by decide)).1,
    c5_correlation_discipline.2.2 []
      { activeSessions := []
        rounds := []
        leaderboard := []
        currentRoundId := none
        currentSeasonId := "s" }
      { userId := "x", requestId := "r", isForm := false, components := [] }
      HandlerResult.notForm [] (by decide) (by intro c; simp)⟩

/-- C6: counterexample — when the scene generation succeeds, the new
state triggers the ending, and the ending generation then fails, the
handler reports the turn-processing error but the session's state and
action history have already been advanced, so the session is not left
untouched as the claim states. -/
theorem c6_counterexample :
    (processTurn genFailSession "open the door" (some genFailScene)
        none).2 = TurnOutcome.turnError ∧
    (processTurn genFailSession "open the door" (some genFailScene)
        none).1.state ≠ genFailSession.state ∧
    (processTurn genFailSession "open the door" (some genFailScene)
        none).1.actionHistory ≠ genFailSession.actionHistory := by
  decide

/-- C6 (amended): a narrative-generator failure always surfaces the
turn-processing error message; when the failure is in generating the
next scene the session is returned untouched, so the player can retry
the same turn, but when the failure is in generating the ending the
session has already been advanced with the applied delta and the
appended action. -/
theorem c6_generator_failure :
    (∀ (session : GameSession) (action : String)
        (e : Option GPTEndingResponse),
      processTurn session action none e =
        (session, TurnOutcome.turnError)) ∧
    (∀ (session : GameSession) (action : String)
        (scene : GPTSceneResponse),
      shouldEndGame (applyStateChanges session.state
        scene.state_changes) = true →
      processTurn session action (some scene) none =
        ({ session with
            state := applyStateChanges session.state scene.state_changes
            actionHistory :=
              if 20 < (session.actionHistory ++ [action]).length then
                (session.actionHistory ++ [action]).drop 1
              else session.actionHistory ++ [action] },
          TurnOutcome.turnError)) := by
  constructor
  · intro session action e
    rfl
  · intro session action scene h
    unfold processTurn
    dsimp only
    rw [h]
    rfl

/-- C6 witness: the failure statement instantiated at the fixture
session, for a scene failure and for an ending failure. -/
theorem c6_generator_failure_witness :
    processTurn genFailSession "wait" none none =
      (genFailSession, TurnOutcome.turnError) ∧
    processTurn genFailSession "wait" (some genFailScene) none =
      ({ genFailSession with
          state := applyStateChanges genFailSession.state
            genFailScene.state_changes
          actionHistory :=
            if 20 < (genFailSession.actionHistory ++ ["wait"]).length then
              (genFailSession.actionHistory ++ ["wait"]).drop 1
            else genFailSession.actionHistory ++ ["wait"] },
        TurnOutcome.turnError) :=
  ⟨c6_generator_failure.1 genFailSession "wait" none,
    c6_generator_failure.2 genFailSession "wait" genFailScene (by decide)⟩

end Room616
